import Mathlib

/-
Verification of the MixedReality-WebRTC interop core against its
specification. Two subsystems are embedded:

1. The GlobalFactory lifecycle manager (interop/global_factory.cpp), in its
   non-UWP compilation (the `#else` branches of `defined(WINUWP)`), which is
   the code path the specification's lifecycle claims cite. Handles (the
   peer-connection factory and the three rtc::Thread objects) are modelled as
   natural numbers drawn from a monotone allocation counter `nextId`, so that
   distinct allocations yield distinguishable handles. The outcome of the
   opaque `webrtc::CreatePeerConnectionFactory` collaborator is a boolean
   oracle `createOk` (false models a null return). A possible exception from
   the `alive_objects_.emplace` call is a boolean oracle `throws`. The field
   `initCount` counts executions of `GlobalFactory::Initialize` (the
   specification's one-time side-effect counter). All public operations run
   under the single mutex `mutex_`, so they are modelled as atomic state
   transformers.

2. The AudioReadStream pull adapter (peer_connection.h). The inline
   `Buffer::readSome` is embedded directly from its source. The bodies of
   `AudioReadStream::Read`, `Buffer::addFrame` and the overrun policy live in
   peer_connection.cpp, which is not part of the sources at hand; those are
   modelled from the specification and marked as such in their doc comments.
-/

namespace MixedRealityWebRTC

/-- Result codes of the interop layer (mrsResult). Only the codes reachable in
the non-UWP path of global_factory.cpp are modelled: Result::kSuccess and
Result::kUnknownError. -/
inductive MrsResult where
  | kSuccess
  | kUnknownError
deriving DecidableEq, Repr

/-- Kinds of tracked objects (enum ObjectType): kPeerConnection = 0,
kLocalVideoTrack = 1, kExternalVideoTrackSource = 2. -/
inductive ObjectType where
  | kPeerConnection
  | kLocalVideoTrack
  | kExternalVideoTrackSource
deriving DecidableEq, Repr

/-- State of the GlobalFactory singleton. `factory_` is the cached
peer-connection-factory handle; `network_thread_`, `worker_thread_` and
`signaling_thread_` are the three execution threads; `alive_objects_` is the
map from tracked-object pointer to its registered kind (keys are addresses,
modelled as naturals; the association list carries at most one entry per
key, matching std::unordered_map). `nextId` is the allocation counter from
which fresh handle identities are drawn, and `initCount` counts runs of
GlobalFactory::Initialize. -/
structure GlobalFactory where
  factory_ : Option Nat
  network_thread_ : Option Nat
  worker_thread_ : Option Nat
  signaling_thread_ : Option Nat
  alive_objects_ : List (Nat × ObjectType)
  nextId : Nat
  initCount : Nat
deriving DecidableEq, Repr

/-- GlobalFactory::ShutdownNoLock: releases the factory handle and resets the
three threads (global_factory.cpp lines 650-659, non-UWP branch). -/
def ShutdownNoLock (s : GlobalFactory) : GlobalFactory :=
  { s with factory_ := none, network_thread_ := none,
           worker_thread_ := none, signaling_thread_ := none }

/-- GlobalFactory::Initialize, non-UWP branch (global_factory.cpp lines
487-648): creates and starts the network, worker and signaling threads, then
calls the opaque webrtc::CreatePeerConnectionFactory collaborator; `createOk`
models whether that collaborator returns a non-null factory. Returns
kSuccess iff the resulting `factory_` is non-null. Note the threads are
created before the factory and are not reset when the factory construction
returns null. -/
def Initialize (createOk : Bool) (s : GlobalFactory) : MrsResult × GlobalFactory :=
  let factoryNew : Option Nat := if createOk then some (s.nextId + 3) else none
  let s' : GlobalFactory :=
    { s with network_thread_ := some s.nextId,
             worker_thread_ := some (s.nextId + 1),
             signaling_thread_ := some (s.nextId + 2),
             factory_ := factoryNew,
             nextId := s.nextId + 4,
             initCount := s.initCount + 1 }
  (if factoryNew.isSome then MrsResult.kSuccess else MrsResult.kUnknownError, s')

/-- GlobalFactory::GetOrCreate(factory&) (global_factory.cpp lines 103-115):
sets the out-parameter to null, then under the mutex initializes if
`factory_` is null, propagating an initialization failure; otherwise copies
`factory_` into the out-parameter and returns kSuccess iff it is non-null.
The returned triple is (result code, out-parameter, state after the call). -/
def GetOrCreate (createOk : Bool) (s : GlobalFactory) :
    MrsResult × Option Nat × GlobalFactory :=
  match s.factory_ with
  | none =>
    let r := Initialize createOk s
    if r.1 ≠ MrsResult.kSuccess then (r.1, none, r.2)
    else (if r.2.factory_.isSome then MrsResult.kSuccess else MrsResult.kUnknownError,
          r.2.factory_, r.2)
  | some h => (MrsResult.kSuccess, some h, s)

/-- GlobalFactory::GetExisting (global_factory.cpp lines 117-121): pure
observation of the cached factory handle, never initializes. -/
def GetExisting (s : GlobalFactory) : Option Nat :=
  s.factory_

/-- Body of GlobalFactory::AddObject inside its try block: the
`alive_objects_.emplace(obj, type)` call, which may throw (`throws` oracle);
std::unordered_map::emplace has the strong exception guarantee and inserts
nothing when the key is already present. -/
def AddObjectBody (throws : Bool) (t : ObjectType) (obj : Nat)
    (s : GlobalFactory) : Except Unit GlobalFactory :=
  if throws then Except.error ()
  else if (s.alive_objects_.lookup obj).isSome then Except.ok s
  else Except.ok { s with alive_objects_ := (obj, t) :: s.alive_objects_ }

/-- GlobalFactory::AddObject (global_factory.cpp lines 132-138): performs the
insertion under the mutex inside a try block whose catch-all swallows every
exception, so the call always returns normally to its caller. -/
def AddObject (throws : Bool) (t : ObjectType) (obj : Nat)
    (s : GlobalFactory) : GlobalFactory :=
  match AddObjectBody throws t obj s with
  | Except.ok s' => s'
  | Except.error _ => s

/-- Outcome of GlobalFactory::RemoveObject: a normal return carrying the state
after the call, or the process-aborting RTC_CHECK failure. -/
inductive RemoveOutcome where
  | ok (s : GlobalFactory)
  | fatalCheck
deriving DecidableEq, Repr

/-- GlobalFactory::RemoveObject (global_factory.cpp lines 140-153): under the
mutex, looks the object up in `alive_objects_`; if absent the call is a
no-op; if present, RTC_CHECK asserts the recorded kind equals the argument
kind (a mismatch aborts the process), then the entry is erased, and if the
map became empty ShutdownNoLock tears the factory and threads down before
the call returns. -/
def RemoveObject (t : ObjectType) (obj : Nat) (s : GlobalFactory) : RemoveOutcome :=
  match s.alive_objects_.lookup obj with
  | none => RemoveOutcome.ok s
  | some tReg =>
    if tReg = t then
      let s1 : GlobalFactory :=
        { s with alive_objects_ := s.alive_objects_.filter (fun p => p.1 != obj) }
      if s1.alive_objects_.isEmpty then RemoveOutcome.ok (ShutdownNoLock s1)
      else RemoveOutcome.ok s1
    else RemoveOutcome.fatalCheck

/-- Public operations on the GlobalFactory, each atomic under the single
mutex. The oracles are carried in the operation: `createOk` for the opaque
factory construction, `throws` for the map insertion. -/
inductive Op where
  | getOrCreate (createOk : Bool)
  | getExisting
  | addObject (throws : Bool) (t : ObjectType) (obj : Nat)
  | removeObject (t : ObjectType) (obj : Nat)
deriving DecidableEq, Repr

/-- One step of the GlobalFactory state machine; `none` models the
process-aborting RTC_CHECK failure in RemoveObject. -/
def step (s : GlobalFactory) (op : Op) : Option GlobalFactory :=
  match op with
  | Op.getOrCreate createOk => some (GetOrCreate createOk s).2.2
  | Op.getExisting => some s
  | Op.addObject throws t obj => some (AddObject throws t obj s)
  | Op.removeObject t obj =>
    match RemoveObject t obj s with
    | RemoveOutcome.ok s' => some s'
    | RemoveOutcome.fatalCheck => none

/-- The GlobalFactory state at process start: no factory, no threads, no
tracked objects (global_factory.cpp line 33 default-constructs the
singleton). -/
def initState : GlobalFactory :=
  { factory_ := none, network_thread_ := none, worker_thread_ := none,
    signaling_thread_ := none, alive_objects_ := [], nextId := 0, initCount := 0 }

/-- Run a sequence of operations from a state; `none` once any step aborts. -/
def run (ops : List Op) (s : GlobalFactory) : Option GlobalFactory :=
  match ops with
  | [] => some s
  | op :: rest =>
    match step s op with
    | some s' => run rest s'
    | none => none

/-- A state is reachable when some operation sequence from process start
produces it without aborting. -/
def Reachable (s : GlobalFactory) : Prop :=
  ∃ ops, run ops initState = some s

/-- The all-or-nothing unit invariant claimed by the specification: the
factory handle and the three execution threads are all present or all
absent. -/
def UnitInvariant (s : GlobalFactory) : Prop :=
  s.factory_.isSome = s.network_thread_.isSome ∧
  s.factory_.isSome = s.worker_thread_.isSome ∧
  s.factory_.isSome = s.signaling_thread_.isSome

instance (s : GlobalFactory) : Decidable (UnitInvariant s) := by
  unfold UnitInvariant; infer_instance

/-- An operation whose embedded construction oracle reports success (every
operation other than getOrCreate trivially so). -/
def noFailedCreate : Op → Bool
  | Op.getOrCreate createOk => createOk
  | _ => true

/-- The state RemoveObject hands back after erasing the last tracked object:
the alive-set is empty and ShutdownNoLock has run. -/
def drainedState (s : GlobalFactory) : GlobalFactory :=
  ShutdownNoLock { s with alive_objects_ := [] }

lemma AddObject_preserves (throws : Bool) (t : ObjectType) (obj : Nat)
    (s : GlobalFactory) :
    (AddObject throws t obj s).factory_ = s.factory_ ∧
    (AddObject throws t obj s).network_thread_ = s.network_thread_ ∧
    (AddObject throws t obj s).worker_thread_ = s.worker_thread_ ∧
    (AddObject throws t obj s).signaling_thread_ = s.signaling_thread_ := by
  cases throws with
  | true => exact ⟨rfl, rfl, rfl, rfl⟩
  | false =>
    unfold AddObject AddObjectBody
    by_cases hl : (s.alive_objects_.lookup obj).isSome
    · simp [hl]
    · simp [hl]

lemma RemoveObject_unit (t : ObjectType) (obj : Nat) (s s' : GlobalFactory)
    (hrm : RemoveObject t obj s = RemoveOutcome.ok s')
    (hinv : UnitInvariant s) : UnitInvariant s' := by
  unfold RemoveObject at hrm
  cases hl : s.alive_objects_.lookup obj with
  | none =>
    rw [hl] at hrm
    simp only [RemoveOutcome.ok.injEq] at hrm
    subst hrm; exact hinv
  | some tReg =>
    rw [hl] at hrm
    by_cases he : tReg = t
    · by_cases hemp :
          (s.alive_objects_.filter (fun p => p.1 != obj)).isEmpty = true
      · simp only [he, if_true, hemp, RemoveOutcome.ok.injEq] at hrm
        subst hrm
        exact ⟨rfl, rfl, rfl⟩
      · simp [he, hemp] at hrm
        subst hrm; exact hinv
    · simp only [he, if_false] at hrm
      exact absurd hrm (by simp)

lemma step_unit (op : Op) (s s' : GlobalFactory)
    (hop : noFailedCreate op = true) (hstep : step s op = some s')
    (hinv : UnitInvariant s) : UnitInvariant s' := by
  cases op with
  | getOrCreate createOk =>
    cases createOk with
    | false => simp [noFailedCreate] at hop
    | true =>
      simp only [step, Option.some.injEq] at hstep
      subst hstep
      cases hf : s.factory_ with
      | none => simp [GetOrCreate, Initialize, hf, UnitInvariant]
      | some h => simpa [GetOrCreate, hf] using hinv
  | getExisting =>
    simp only [step, Option.some.injEq] at hstep
    subst hstep; exact hinv
  | addObject throws t obj =>
    simp only [step, Option.some.injEq] at hstep
    subst hstep
    obtain ⟨h1, h2, h3, h4⟩ := AddObject_preserves throws t obj s
    exact ⟨h1 ▸ h2 ▸ (h1 ▸ hinv.1), by rw [h1, h3]; exact hinv.2.1,
           by rw [h1, h4]; exact hinv.2.2⟩
  | removeObject t obj =>
    simp only [step] at hstep
    cases hrm : RemoveObject t obj s with
    | ok s1 =>
      rw [hrm] at hstep
      simp only [Option.some.injEq] at hstep
      subst hstep
      exact RemoveObject_unit t obj s s1 hrm hinv
    | fatalCheck => rw [hrm] at hstep; exact absurd hstep (by simp)

lemma run_unit (ops : List Op) : ∀ s s' : GlobalFactory,
    (∀ op ∈ ops, noFailedCreate op = true) →
    run ops s = some s' → UnitInvariant s → UnitInvariant s' := by
  induction ops with
  | nil =>
    intro s s' _ hrun hinv
    simp only [run, Option.some.injEq] at hrun
    subst hrun; exact hinv
  | cons op rest ih =>
    intro s s' hall hrun hinv
    unfold run at hrun
    cases hst : step s op with
    | none => rw [hst] at hrun; exact absurd hrun (by simp)
    | some s1 =>
      rw [hst] at hrun
      exact ih s1 s' (fun o ho => hall o (List.mem_cons_of_mem op ho)) hrun
        (step_unit op s s1 (hall op (List.mem_cons_self op rest)) hst hinv)

/-- C4: once `factory_` caches a handle, GlobalFactory::GetOrCreate returns
that same handle with result kSuccess and leaves the whole state unchanged
(in particular `initCount` is unchanged, so no initialization sequence runs),
whatever the construction oracle would report. -/
theorem c4_getOrCreate_idempotent (s : GlobalFactory) (h : Nat)
    (hfac : s.factory_ = some h) (createOk : Bool) :
    GetOrCreate createOk s = (MrsResult.kSuccess, some h, s) := by
  simp [GetOrCreate, hfac]

/-- Witness for C4 at a concrete Ready state. -/
theorem c4_getOrCreate_idempotent_witness :
    GetOrCreate false
      { factory_ := some 3, network_thread_ := some 0, worker_thread_ := some 1,
        signaling_thread_ := some 2, alive_objects_ := [(9, ObjectType.kPeerConnection)],
        nextId := 4, initCount := 1 } =
      (MrsResult.kSuccess, some 3,
       { factory_ := some 3, network_thread_ := some 0, worker_thread_ := some 1,
         signaling_thread_ := some 2, alive_objects_ := [(9, ObjectType.kPeerConnection)],
         nextId := 4, initCount := 1 }) :=
  c4_getOrCreate_idempotent _ 3 rfl false

/-- C9: GlobalFactory::RemoveObject on an object absent from the alive-set is
a silent no-op for every kind: the state (alive-set, factory, threads) is
returned unchanged and the RTC_CHECK kind assertion is not reached. -/
theorem c9_remove_absent_noop (s : GlobalFactory) (t : ObjectType) (obj : Nat)
    (habs : s.alive_objects_.lookup obj = none) :
    RemoveObject t obj s = RemoveOutcome.ok s := by
  simp [RemoveObject, habs]

/-- Witness for C9 at a concrete state holding one other object. -/
theorem c9_remove_absent_noop_witness :
    RemoveObject ObjectType.kLocalVideoTrack 8
      { factory_ := some 3, network_thread_ := some 0, worker_thread_ := some 1,
        signaling_thread_ := some 2, alive_objects_ := [(9, ObjectType.kPeerConnection)],
        nextId := 4, initCount := 1 } =
      RemoveOutcome.ok
      { factory_ := some 3, network_thread_ := some 0, worker_thread_ := some 1,
        signaling_thread_ := some 2, alive_objects_ := [(9, ObjectType.kPeerConnection)],
        nextId := 4, initCount := 1 } :=
  c9_remove_absent_noop _ _ 8 (by decide)

/-- C5: for an object registered with kind `t`, GlobalFactory::RemoveObject
hits the process-aborting RTC_CHECK exactly when called with a kind different
from `t`; with the matching kind the check never fires, for all kinds of the
ObjectType enumeration. -/
theorem c5_kind_integrity (s : GlobalFactory) (obj : Nat) (t tArg : ObjectType)
    (hreg : s.alive_objects_.lookup obj = some t) :
    (RemoveObject tArg obj s = RemoveOutcome.fatalCheck ↔ tArg ≠ t) := by
  unfold RemoveObject
  rw [hreg]
  by_cases he : t = tArg
  · subst he
    simp only [if_true, ne_eq, not_true_eq_false, iff_false]
    by_cases hemp : (s.alive_objects_.filter (fun p => p.1 != obj)).isEmpty = true
    · simp [hemp]
    · simp [hemp]
  · simp only [he, if_false, ne_eq]
    constructor
    · intro _ hc; exact he hc.symm
    · intro _; trivial

/-- Witness for C5: kPeerConnection registered, unregistered as
kLocalVideoTrack fires the fatal check. -/
theorem c5_kind_integrity_witness :
    (RemoveObject ObjectType.kLocalVideoTrack 9
      { factory_ := some 3, network_thread_ := some 0, worker_thread_ := some 1,
        signaling_thread_ := some 2, alive_objects_ := [(9, ObjectType.kPeerConnection)],
        nextId := 4, initCount := 1 } = RemoveOutcome.fatalCheck ↔
      ObjectType.kLocalVideoTrack ≠ ObjectType.kPeerConnection) :=
  c5_kind_integrity _ 9 ObjectType.kPeerConnection ObjectType.kLocalVideoTrack (by decide)

/-- C6: GlobalFactory::AddObject never fails its caller. When the underlying
map insertion throws (`throws = true`), the body raises and the catch-all
swallows it: the call still returns normally with the state unchanged. When
the insertion does not throw, the object is present in the alive-set
afterwards. (The return type of AddObject is a plain state, not an error
result: there is no failure channel at all.) -/
theorem c6_addObject_never_fails (t : ObjectType) (obj : Nat) (s : GlobalFactory) :
    AddObjectBody true t obj s = Except.error () ∧
    AddObject true t obj s = s ∧
    ((AddObject false t obj s).alive_objects_.lookup obj).isSome = true := by
  refine ⟨rfl, rfl, ?_⟩
  unfold AddObject AddObjectBody
  by_cases hl : (s.alive_objects_.lookup obj).isSome
  · simp [hl]
  · simp [hl, List.lookup]

/-- C1: when GlobalFactory::RemoveObject erases the last tracked object, the
call returns the drained state in which ShutdownNoLock has already run — the
factory handle is cleared and the three threads are torn down before the call
returns — and a subsequent GetOrCreate performs a fresh initialization (its
`initCount` advances) and hands out a handle distinct from the prior one.
The hypothesis `h < s.nextId` is the allocation-freshness invariant: every
handle ever handed out was drawn below the current allocation counter. -/
theorem c1_last_remove_shuts_down (s : GlobalFactory) (t : ObjectType)
    (obj h : Nat) (halive : s.alive_objects_ = [(obj, t)])
    (hfac : s.factory_ = some h) (hfresh : h < s.nextId) :
    RemoveObject t obj s = RemoveOutcome.ok (drainedState s) ∧
    (drainedState s).factory_ = none ∧
    (drainedState s).network_thread_ = none ∧
    (drainedState s).worker_thread_ = none ∧
    (drainedState s).signaling_thread_ = none ∧
    (GetOrCreate true (drainedState s)).1 = MrsResult.kSuccess ∧
    (GetOrCreate true (drainedState s)).2.2.initCount = s.initCount + 1 ∧
    (GetOrCreate true (drainedState s)).2.1 ≠ some h := by
  refine ⟨?_, rfl, rfl, rfl, rfl, ?_, ?_, ?_⟩
  · simp [RemoveObject, halive, List.lookup, drainedState, ShutdownNoLock]
  · simp [GetOrCreate, Initialize, drainedState, ShutdownNoLock]
  · simp [GetOrCreate, Initialize, drainedState, ShutdownNoLock]
  · have hout : (GetOrCreate true (drainedState s)).2.1 = some (s.nextId + 3) := by
      simp [GetOrCreate, Initialize, drainedState, ShutdownNoLock]
    rw [hout]
    simp only [ne_eq, Option.some.injEq]
    omega

/-- Witness for C1 at a Ready state holding exactly one tracked object. -/
theorem c1_last_remove_shuts_down_witness :
    RemoveObject ObjectType.kLocalVideoTrack 9
      { factory_ := some 3, network_thread_ := some 0, worker_thread_ := some 1,
        signaling_thread_ := some 2,
        alive_objects_ := [(9, ObjectType.kLocalVideoTrack)],
        nextId := 4, initCount := 1 } =
      RemoveOutcome.ok (drainedState
      { factory_ := some 3, network_thread_ := some 0, worker_thread_ := some 1,
        signaling_thread_ := some 2,
        alive_objects_ := [(9, ObjectType.kLocalVideoTrack)],
        nextId := 4, initCount := 1 }) ∧
    (drainedState
      { factory_ := some 3, network_thread_ := some 0, worker_thread_ := some 1,
        signaling_thread_ := some 2,
        alive_objects_ := [(9, ObjectType.kLocalVideoTrack)],
        nextId := 4, initCount := 1 }).factory_ = none ∧
    (drainedState
      { factory_ := some 3, network_thread_ := some 0, worker_thread_ := some 1,
        signaling_thread_ := some 2,
        alive_objects_ := [(9, ObjectType.kLocalVideoTrack)],
        nextId := 4, initCount := 1 }).network_thread_ = none ∧
    (drainedState
      { factory_ := some 3, network_thread_ := some 0, worker_thread_ := some 1,
        signaling_thread_ := some 2,
        alive_objects_ := [(9, ObjectType.kLocalVideoTrack)],
        nextId := 4, initCount := 1 }).worker_thread_ = none ∧
    (drainedState
      { factory_ := some 3, network_thread_ := some 0, worker_thread_ := some 1,
        signaling_thread_ := some 2,
        alive_objects_ := [(9, ObjectType.kLocalVideoTrack)],
        nextId := 4, initCount := 1 }).signaling_thread_ = none ∧
    (GetOrCreate true (drainedState
      { factory_ := some 3, network_thread_ := some 0, worker_thread_ := some 1,
        signaling_thread_ := some 2,
        alive_objects_ := [(9, ObjectType.kLocalVideoTrack)],
        nextId := 4, initCount := 1 })).1 = MrsResult.kSuccess ∧
    (GetOrCreate true (drainedState
      { factory_ := some 3, network_thread_ := some 0, worker_thread_ := some 1,
        signaling_thread_ := some 2,
        alive_objects_ := [(9, ObjectType.kLocalVideoTrack)],
        nextId := 4, initCount := 1 })).2.2.initCount = 1 + 1 ∧
    (GetOrCreate true (drainedState
      { factory_ := some 3, network_thread_ := some 0, worker_thread_ := some 1,
        signaling_thread_ := some 2,
        alive_objects_ := [(9, ObjectType.kLocalVideoTrack)],
        nextId := 4, initCount := 1 })).2.1 ≠ some 3 :=
  c1_last_remove_shuts_down _ ObjectType.kLocalVideoTrack 9 3 rfl rfl (by decide)

/-- C2 counterexample: the claimed all-or-nothing invariant fails on the code.
A single GetOrCreate whose underlying factory construction returns null
(global_factory.cpp lines 533-545 create and start the three threads before
line 634 constructs the factory; the failure path returns without resetting
them) reaches a state with all three threads present and no factory
handle. -/
theorem c2_unit_counterexample :
    run [Op.getOrCreate false] initState =
      some { factory_ := none, network_thread_ := some 0, worker_thread_ := some 1,
             signaling_thread_ := some 2, alive_objects_ := [],
             nextId := 4, initCount := 1 } ∧
    ¬ UnitInvariant
      { factory_ := none, network_thread_ := some 0, worker_thread_ := some 1,
        signaling_thread_ := some 2, alive_objects_ := [],
        nextId := 4, initCount := 1 } := by
  exact ⟨by decide, by decide⟩

/-- C2 amended: in every state reachable by operation sequences in which the
underlying factory construction never returns null, the factory handle and
the three execution threads are all present or all absent; a failed
initialization is the one exception, transiently leaving the threads created
with no factory handle. -/
theorem c2_unit_invariant_amended (ops : List Op) (s : GlobalFactory)
    (hok : ∀ op ∈ ops, noFailedCreate op = true)
    (hrun : run ops initState = some s) : UnitInvariant s :=
  run_unit ops initState s hok hrun ⟨rfl, rfl, rfl⟩

/-- Witness for the amended C2 on a concrete successful-acquisition run. -/
theorem c2_unit_invariant_amended_witness :
    UnitInvariant
      { factory_ := some 3, network_thread_ := some 0, worker_thread_ := some 1,
        signaling_thread_ := some 2, alive_objects_ := [],
        nextId := 4, initCount := 1 } :=
  c2_unit_invariant_amended [Op.getOrCreate true] _ (by decide) (by decide)

/-- C3: a GetOrCreate that attempts initialization succeeds iff the opaque
factory construction returns a non-null handle. On failure the error code is
returned to the caller, the out-parameter stays null, and `factory_` remains
null (the Uninitialized condition the code tests), so a later GetOrCreate
runs the initialization sequence again (the `initCount` advances once for the
failed attempt and once for the retry) and can succeed. -/
theorem c3_failure_and_retry (s : GlobalFactory) (hfac : s.factory_ = none)
    (createOk : Bool) :
    ((GetOrCreate createOk s).1 = MrsResult.kSuccess ↔ createOk = true) ∧
    (GetOrCreate false s).1 = MrsResult.kUnknownError ∧
    (GetOrCreate false s).2.1 = none ∧
    (GetOrCreate false s).2.2.factory_ = none ∧
    (GetOrCreate true (GetOrCreate false s).2.2).1 = MrsResult.kSuccess ∧
    (GetOrCreate true (GetOrCreate false s).2.2).2.1 ≠ none ∧
    (GetOrCreate true (GetOrCreate false s).2.2).2.2.initCount = s.initCount + 2 := by
  refine ⟨?_, ?_, ?_, ?_, ?_, ?_, ?_⟩
  · cases createOk <;> simp [GetOrCreate, Initialize, hfac]
  · simp [GetOrCreate, Initialize, hfac]
  · simp [GetOrCreate, Initialize, hfac]
  · simp [GetOrCreate, Initialize, hfac]
  · simp [GetOrCreate, Initialize, hfac]
  · simp [GetOrCreate, Initialize, hfac]
  · simp [GetOrCreate, Initialize, hfac]

/-- Witness for C3 from the process start state. -/
theorem c3_failure_and_retry_witness :
    ((GetOrCreate true initState).1 = MrsResult.kSuccess ↔ true = true) ∧
    (GetOrCreate false initState).1 = MrsResult.kUnknownError ∧
    (GetOrCreate false initState).2.1 = none ∧
    (GetOrCreate false initState).2.2.factory_ = none ∧
    (GetOrCreate true (GetOrCreate false initState).2.2).1 = MrsResult.kSuccess ∧
    (GetOrCreate true (GetOrCreate false initState).2.2).2.1 ≠ none ∧
    (GetOrCreate true (GetOrCreate false initState).2.2).2.2.initCount = 0 + 2 :=
  c3_failure_and_retry initState rfl true

/-- AudioReadStream::Buffer (peer_connection.h lines 414-431): the working
buffer of already-resampled samples. `data_` is the sample vector and `used_`
the count of samples already consumed (an int in the source). The sample type
is a parameter: sample values are opaque to the buffer (the source moves raw
floats with memcpy). -/
structure Buffer (α : Type) where
  data_ : List α
  used_ : Int
deriving DecidableEq, Repr

/-- Buffer::available (peer_connection.h line 423):
`(int)data_.size() - used_`. -/
def Buffer.available {α : Type} (b : Buffer α) : Int :=
  (b.data_.length : Int) - b.used_

/-- Buffer::readSome (peer_connection.h lines 424-429): takes
`min(available(), dstLen)` samples starting at offset `used_`, advances
`used_` by that amount. The first component is the copied samples (the
destination region the memcpy writes), the second the buffer afterwards. -/
def Buffer.readSome {α : Type} (b : Buffer α) (dstLen : Int) : List α × Buffer α :=
  let take := min b.available dstLen
  ((b.data_.drop b.used_.toNat).take take.toNat,
   { b with used_ := b.used_ + take })

/-- C10: Buffer::readSome copies exactly `min(available(), dstLen)` samples —
precisely the slice of `data_` starting at `used_` — advances `used_` by that
amount, leaves `data_` untouched, never reaches past the end of `data_`
(`used_ + take ≤ data_.size()`), and preserves the invariant
`0 ≤ used_ ≤ data_.size()`, for every `dstLen ≥ 0`. -/
theorem c10_readSome_exact {α : Type} (b : Buffer α) (dstLen : Int)
    (hlen : 0 ≤ dstLen) (h0 : 0 ≤ b.used_)
    (h1 : b.used_ ≤ (b.data_.length : Int)) :
    ((b.readSome dstLen).1.length : Int) = min b.available dstLen ∧
    (b.readSome dstLen).1 =
      (b.data_.drop b.used_.toNat).take (min b.available dstLen).toNat ∧
    (b.readSome dstLen).2.used_ = b.used_ + min b.available dstLen ∧
    (b.readSome dstLen).2.data_ = b.data_ ∧
    b.used_ + min b.available dstLen ≤ (b.data_.length : Int) ∧
    0 ≤ (b.readSome dstLen).2.used_ ∧
    (b.readSome dstLen).2.used_ ≤ ((b.readSome dstLen).2.data_.length : Int) := by
  refine ⟨?_, rfl, rfl, rfl, ?_, ?_, ?_⟩
  · show (((b.data_.drop b.used_.toNat).take (min b.available dstLen).toNat).length : Int)
        = min b.available dstLen
    rw [List.length_take, List.length_drop]
    simp only [Buffer.available]
    omega
  · simp only [Buffer.available]; omega
  · show 0 ≤ b.used_ + min b.available dstLen
    simp only [Buffer.available]; omega
  · show b.used_ + min b.available dstLen ≤ (b.data_.length : Int)
    simp only [Buffer.available]; omega

/-- Witness for C10 on a concrete partially-consumed buffer. -/
theorem c10_readSome_exact_witness :
    (((Buffer.mk [10, 20, 30] 1 : Buffer Int).readSome 5).1.length : Int) =
      min (Buffer.mk [10, 20, 30] 1 : Buffer Int).available 5 ∧
    ((Buffer.mk [10, 20, 30] 1 : Buffer Int).readSome 5).1 =
      ((Buffer.mk [10, 20, 30] 1 : Buffer Int).data_.drop
        (Buffer.mk [10, 20, 30] 1 : Buffer Int).used_.toNat).take
        (min (Buffer.mk [10, 20, 30] 1 : Buffer Int).available 5).toNat ∧
    ((Buffer.mk [10, 20, 30] 1 : Buffer Int).readSome 5).2.used_ =
      (Buffer.mk [10, 20, 30] 1 : Buffer Int).used_ +
        min (Buffer.mk [10, 20, 30] 1 : Buffer Int).available 5 ∧
    ((Buffer.mk [10, 20, 30] 1 : Buffer Int).readSome 5).2.data_ =
      (Buffer.mk [10, 20, 30] 1 : Buffer Int).data_ ∧
    (Buffer.mk [10, 20, 30] 1 : Buffer Int).used_ +
        min (Buffer.mk [10, 20, 30] 1 : Buffer Int).available 5 ≤
      ((Buffer.mk [10, 20, 30] 1 : Buffer Int).data_.length : Int) ∧
    0 ≤ ((Buffer.mk [10, 20, 30] 1 : Buffer Int).readSome 5).2.used_ ∧
    ((Buffer.mk [10, 20, 30] 1 : Buffer Int).readSome 5).2.used_ ≤
      (((Buffer.mk [10, 20, 30] 1 : Buffer Int).readSome 5).2.data_.length : Int) :=
  c10_readSome_exact (Buffer.mk [10, 20, 30] 1) 5 (by decide) (by decide) (by decide)

/-- AudioReadStream::Frame (peer_connection.h lines 400-406): one raw audio
frame received from the engine callback. The payload bytes are modelled as a
list of integer sample values. -/
structure Frame where
  audio_data : List Int
  bits_per_sample : Nat
  sample_rate : Nat
  number_of_channels : Nat
  number_of_frames : Nat
deriving DecidableEq, Repr

/-- AudioReadStream (peer_connection.h lines 371-434): `frames_` is the FIFO
of raw frames from the engine (oldest first), `buffer_ms_` the configured
buffer horizon in milliseconds, `sinwave_iter_` the running phase of the
synthesized filler signal, `buffer_` the working buffer of already-resampled
samples. -/
structure AudioReadStream where
  frames_ : List Frame
  buffer_ms_ : Nat
  sinwave_iter_ : Nat
  buffer_ : Buffer Int
deriving DecidableEq, Repr

/-- An AudioReadStream as constructed (peer_connection.h line 376) with the
given buffer horizon and nothing buffered yet. -/
def mkStream (bufferMs : Nat) : AudioReadStream :=
  { frames_ := [], buffer_ms_ := bufferMs, sinwave_iter_ := 0,
    buffer_ := { data_ := [], used_ := 0 } }

/-- Modelled from the spec: AudioReadStream::audioFrameCallback (its body is
in peer_connection.cpp, not among the sources at hand) appends the delivered
frame to the tail of the `frames_` FIFO under `frames_mutex_` and never
fails. -/
def pushFrame (f : Frame) (s : AudioReadStream) : AudioReadStream :=
  { s with frames_ := s.frames_ ++ [f] }

/-- Modelled from the spec: the overrun policy of AudioReadStream (body in
peer_connection.cpp, not among the sources at hand). The engine delivers one
frame per 10 ms slice, so the horizon of `bufferMs` milliseconds corresponds
to `bufferMs / 10` frames; when more unread raw frames have accumulated, the
oldest are dropped before resampling and only the newest `bufferMs / 10`
frames are retained. -/
def dropOverrun (bufferMs : Nat) (frames : List Frame) : List Frame :=
  frames.drop (frames.length - bufferMs / 10)

/-- Modelled from the spec: one sample of the synthesized filler signal (a
quiet sine approximation) at phase `k`. -/
def fillerSample (k : Nat) : Int :=
  [0, 2, 3, 2, 0, -2, -3, -2].getD (k % 8) 0

/-- Modelled from the spec: `n` filler samples starting at phase `iter`. -/
def fillerSamples (iter n : Nat) : List Int :=
  (List.range n).map (fun i => fillerSample (iter + i))

/-- Modelled from the spec: the read loop of AudioReadStream::Read (body in
peer_connection.cpp, not among the sources at hand). It drains the working
buffer; while fewer than the requested samples are unread it pulls the next
raw frame from the FIFO (oldest first), resamples it with the supplied
converter and appends the result to the working buffer (Buffer::addFrame),
discarding the consumed raw frame; when the FIFO is exhausted first, the
remainder is filled with the synthesized filler signal. Returns the samples
produced, the frames left in the FIFO, the working buffer afterwards and the
advanced filler phase. -/
def readLoop (resample : Frame → List Int) :
    List Frame → Buffer Int → Nat → Nat →
      List Int × (List Frame × Buffer Int × Nat)
  | [], buf, iter, need =>
    let got := (buf.readSome (need : Int)).1
    let buf' := (buf.readSome (need : Int)).2
    if got.length = need then (got, ([], buf', iter))
    else
      (got ++ fillerSamples iter (need - got.length),
       ([], buf', iter + (need - got.length)))
  | f :: rest, buf, iter, need =>
    let got := (buf.readSome (need : Int)).1
    let buf' := (buf.readSome (need : Int)).2
    if got.length = need then (got, (f :: rest, buf', iter))
    else
      let buf2 : Buffer Int := { buf' with data_ := buf'.data_ ++ resample f }
      let r := readLoop resample rest buf2 iter (need - got.length)
      (got ++ r.1, r.2)

/-- Modelled from the spec: AudioReadStream::Read (body in
peer_connection.cpp, not among the sources at hand). Under `frames_mutex_`
the raw FIFO is first subjected to the overrun policy (oldest frames beyond
the `buffer_ms_` horizon are dropped before resampling), then the read loop
fills exactly `n` output samples at the requested rate and channel count;
`resampleAt rate channels` is the deterministic rate/channel converter
applied to each consumed raw frame. There is no error return. -/
def read (resampleAt : Nat → Nat → Frame → List Int) (rate channels : Nat)
    (s : AudioReadStream) (n : Nat) : List Int × AudioReadStream :=
  let kept := dropOverrun s.buffer_ms_ s.frames_
  let r := readLoop (resampleAt rate channels) kept s.buffer_ s.sinwave_iter_ n
  (r.1, { s with frames_ := r.2.1, buffer_ := r.2.2.1, sinwave_iter_ := r.2.2.2 })

lemma readSome_length_le {α : Type} (b : Buffer α) (need : Nat) :
    (b.readSome (need : Int)).1.length ≤ need := by
  show ((b.data_.drop b.used_.toNat).take (min b.available (need : Int)).toNat).length
      ≤ need
  rw [List.length_take]
  have : (min b.available (need : Int)).toNat ≤ need := by omega
  omega

lemma fillerSamples_length (iter n : Nat) : (fillerSamples iter n).length = n := by
  simp [fillerSamples]

lemma readLoop_length (resample : Frame → List Int) (frames : List Frame) :
    ∀ (buf : Buffer Int) (iter need : Nat),
      (readLoop resample frames buf iter need).1.length = need := by
  induction frames with
  | nil =>
    intro buf iter need
    unfold readLoop
    by_cases hg : ((buf.readSome (need : Int)).1).length = need
    · simp [hg]
    · have hle := readSome_length_le buf need
      simp only [hg, if_false, List.length_append, fillerSamples_length]
      omega
  | cons f rest ih =>
    intro buf iter need
    unfold readLoop
    by_cases hg : ((buf.readSome (need : Int)).1).length = need
    · simp [hg]
    · have hle := readSome_length_le buf need
      simp only [hg, if_false, List.length_append, ih]
      omega

/-- C7: for every request of `n > 0` samples at any rate and channel count,
and any state of the frame FIFO and working buffer, AudioReadStream::Read
produces exactly `n` output samples — real samples where buffered data
suffices, synthesized filler for the rest — and has no error return (its
result type carries none). -/
theorem c7_read_fills_exactly (resampleAt : Nat → Nat → Frame → List Int)
    (rate channels : Nat) (s : AudioReadStream) (n : Nat) (hn : 0 < n) :
    (read resampleAt rate channels s n).1.length = n :=
  readLoop_length (resampleAt rate channels)
    (dropOverrun s.buffer_ms_ s.frames_) s.buffer_ s.sinwave_iter_ n

/-- Witness for C7: a 48 kHz mono read of 5 samples against a stream holding
one 3-sample frame and an empty working buffer; the result is the 3 real
samples followed by 2 filler samples. -/
theorem c7_read_fills_exactly_witness :
    (read (fun _ _ f => f.audio_data) 48000 1
      (pushFrame (Frame.mk [7, 8, 9] 16 48000 1 3) (mkStream 40)) 5).1.length = 5 :=
  c7_read_fills_exactly (fun _ _ f => f.audio_data) 48000 1
    (pushFrame (Frame.mk [7, 8, 9] 16 48000 1 3) (mkStream 40)) 5 (by decide)

/-- C8: pushing more than `bufferMs` worth of 10 ms frames with no
intervening reads leaves the FIFO holding all of them, but the frames the
overrun policy retains for resampling cover at most the configured horizon
(within one frame of slack), and they are a suffix of the pushed sequence —
only the oldest frames are dropped, so consumption stays oldest-first on the
remainder. -/
theorem c8_overrun_bound (bufferMs : Nat) (fs : List Frame)
    (hover : bufferMs < fs.length * 10) :
    (fs.foldl (fun st f => pushFrame f st) (mkStream bufferMs)).frames_ = fs ∧
    (dropOverrun bufferMs fs).length * 10 ≤ bufferMs + 10 ∧
    (dropOverrun bufferMs fs) <:+ fs := by
  refine ⟨?_, ?_, List.drop_suffix _ _⟩
  · have hgen : ∀ (l : List Frame) (s : AudioReadStream),
        (l.foldl (fun st f => pushFrame f st) s).frames_ = s.frames_ ++ l := by
      intro l
      induction l with
      | nil => intro s; simp
      | cons f rest ih =>
        intro s
        rw [List.foldl_cons, ih]
        simp [pushFrame]
    simpa [mkStream] using hgen fs (mkStream bufferMs)
  · simp only [dropOverrun, List.length_drop]
    omega

/-- Witness for C8: seven 10 ms frames pushed against a 40 ms horizon. -/
theorem c8_overrun_bound_witness :
    ((List.replicate 7 (Frame.mk [0] 16 48000 1 480)).foldl
        (fun st f => pushFrame f st) (mkStream 40)).frames_ =
      List.replicate 7 (Frame.mk [0] 16 48000 1 480) ∧
    (dropOverrun 40 (List.replicate 7 (Frame.mk [0] 16 48000 1 480))).length * 10 ≤
      40 + 10 ∧
    (dropOverrun 40 (List.replicate 7 (Frame.mk [0] 16 48000 1 480))) <:+
      List.replicate 7 (Frame.mk [0] 16 48000 1 480) :=
  c8_overrun_bound 40 (List.replicate 7 (Frame.mk [0] 16 48000 1 480)) (by decide)

end MixedRealityWebRTC
